import Mathlib

/-!
Shallow embedding of a set of Terraform-provider CRUD handlers for Tencent
Cloud resources, together with proofs about them.

Embedded source files:
  * `resource_tc_clickhouse_account_permission.go`
  * `resource_tc_monitor_tmp_scrape_job.go`
  * `resource_tc_sqlserver_config_database_ct.go`
  * `resource_tc_vpc_flow_log_config.go`
  * `data_source_tc_scf_request_status.go`

Modelling conventions:
  * Go strings are Lean `String`s; pointer-typed SDK fields are `Option`s
    (`none` = nil pointer).
  * A handler's interaction with the remote cloud API is abstracted by
    oracle arguments of type `GoResult α`: the (final) outcome of the
    bounded-retry wrapper around one API invocation.  A `.err` oracle value
    stands for an exhausted retry budget or a non-retryable API error.
  * Each handler returns an outcome record carrying the Go return value
    (`result`), the identifier written by `d.SetId` during the invocation
    (`newId`, `none` when `SetId` was not called), whether any remote API
    call was issued (`apiCalled`), and one `set_<field>` component per
    schema attribute written by `d.Set` (`none` = the attribute was not
    written, so the previously stored state is left unchanged).
  * Go runtime panics (nil-pointer dereference, index out of range) are
    the `.panic` constructor, kept distinct from error returns.
-/

/-- Outcome of a Go computation: a normal value, an error returned with
`fmt.Errorf`/an SDK error, or a runtime panic. -/
inductive GoResult (α : Type) where
  | ok (a : α)
  | err (msg : String)
  | panic (msg : String)
deriving DecidableEq

/-- Message of the Go runtime panic raised by an out-of-range slice index. -/
def indexOutOfRangeMsg : String := "runtime error: index out of range"

/-- Message of the Go runtime panic raised by dereferencing a nil pointer. -/
def nilDerefMsg : String := "runtime error: invalid memory address or nil pointer dereference"

/-- Modelled from the spec: the fixed literal separator used by the
identifier codec ("join N component strings with a literal separator").
Its Go definition (`FILED_SP`) lies outside the provided source files; the
per-resource import documentation inside the provided sources fixes it to
the one-character string "#" (for example
`terraform import ... ${instanceId}#${cluster}#${userName}`). -/
def FILED_SP : String := "#"

/-- The single character making up `FILED_SP`. -/
def FILED_SP_char : Char := '#'

theorem FILED_SP_data : FILED_SP.data = [FILED_SP_char] := rfl

/-- Go `strings.Split(s, FILED_SP)`.  Since the separator is the single
character `#`, splitting on the string coincides with splitting the
character list on that character. -/
def goSplit (s : String) : List String :=
  (List.splitOn FILED_SP_char s.data).map String.mk

/-- Go `strings.Join(parts, FILED_SP)`. -/
def goJoin (parts : List String) : String :=
  String.mk ([FILED_SP_char].intercalate (parts.map String.data))

theorem goSplit_data (s : String) :
    goSplit s = (List.splitOn FILED_SP_char s.data).map String.mk := rfl

theorem goJoin_data (parts : List String) :
    (goJoin parts).data = [FILED_SP_char].intercalate (parts.map String.data) := rfl

/-- A Go `return nil` handler body: no error, no remote API call. -/
structure SimpleOutcome where
  result : GoResult Unit := .ok ()
  apiCalled : Bool := false
deriving DecidableEq

/-! Clickhouse account permission (`resource_tc_clickhouse_account_permission.go`).
The composite identifier is `instanceId + FILED_SP + cluster + FILED_SP + userName`. -/

/-- SDK `clickhouse.TablePrivilegeInfo` (pointer fields). -/
structure TablePrivilegeInfo where
  TableName : Option String := none
  TablePrivileges : Option (List String) := none
deriving DecidableEq

/-- SDK `clickhouse.DatabasePrivilegeInfo` (pointer fields). -/
structure DatabasePrivilegeInfo where
  DatabaseName : Option String := none
  DatabasePrivileges : Option (List String) := none
  TablePrivilegeList : Option (List TablePrivilegeInfo) := none
deriving DecidableEq

/-- Response of `service.DescribeCdwchAccountPermission` (pointer fields). -/
structure CdwchAccountPermission where
  InstanceId : Option String := none
  Cluster : Option String := none
  UserName : Option String := none
  AllDatabase : Option Bool := none
  GlobalPrivileges : Option (List String) := none
  DatabasePrivilegeList : Option (List DatabasePrivilegeInfo) := none
deriving DecidableEq

/-- The `table_privilege_list` entry map built by the read handler. -/
structure TablePrivilegeEntry where
  table_name : Option String := none
  table_privileges : Option (List String) := none
deriving DecidableEq

/-- The `database_privilege_list` entry map built by the read handler.
The `table_privilege_list` value mirrors the source, which wraps the
rendered entry list in one more single-element list
(`[]interface\x7b\x7d\x7btablePrivilegeListList\x7d`). -/
structure DatabasePrivilegeEntry where
  database_name : Option String := none
  database_privileges : Option (List String) := none
  table_privilege_list : Option (List (List TablePrivilegeEntry)) := none
deriving DecidableEq

/-- Rendering of one `TablePrivilegeInfo` into its entry map (nil-guarded
field by field, as in the loop over `TablePrivilegeList`). -/
def tablePrivilegeEntryOf (t : TablePrivilegeInfo) : TablePrivilegeEntry :=
  { table_name := t.TableName, table_privileges := t.TablePrivileges }

/-- Rendering of one `DatabasePrivilegeInfo` into its entry map (nil-guarded
field by field, as in the loop over `DatabasePrivilegeList`). -/
def databasePrivilegeEntryOf (dbp : DatabasePrivilegeInfo) : DatabasePrivilegeEntry :=
  { database_name := dbp.DatabaseName,
    database_privileges := dbp.DatabasePrivileges,
    table_privilege_list :=
      dbp.TablePrivilegeList.map (fun l => [l.map tablePrivilegeEntryOf]) }

/-- Error returned by the clickhouse read/update/delete handlers when the
identifier does not split into exactly three components. -/
def ckBrokenIdMsg (id : String) : String :=
  "tencentcloud_clickhouse_account id is broken, id is " ++ id

/-- Error returned by the clickhouse update handler when an immutable
argument changed. -/
def ckImmutableMsg (v : String) : String :=
  "argument `" ++ v ++ "` cannot be changed"

/-- The `immutableArgs` list of the clickhouse update handler. -/
def immutableArgs : List String := ["instance_id", "cluster", "user_name"]

/-- Outcome record of the clickhouse read handler (also used for the
create/update handlers, which end by delegating to the read). -/
structure CkReadOutcome where
  result : GoResult Unit := .ok ()
  newId : Option String := none
  apiCalled : Bool := false
  set_instance_id : Option String := none
  set_cluster : Option String := none
  set_user_name : Option String := none
  set_all_database : Option Bool := none
  set_global_privileges : Option (List String) := none
  set_database_privilege_list : Option (List DatabasePrivilegeEntry) := none
deriving DecidableEq

/-- `resourceTencentCloudClickhouseAccountPermissionRead`: split the id,
assert three components, describe the account permission remotely
(`remote` is that lookup's outcome), clear the id on a nil result, and
copy each non-nil response field into state. -/
def resourceTencentCloudClickhouseAccountPermissionRead (id : String)
    (remote : GoResult (Option CdwchAccountPermission)) : CkReadOutcome :=
  let idSplit := goSplit id
  if idSplit.length ≠ 3 then
    { result := .err (ckBrokenIdMsg id) }
  else
    match remote with
    | .err e => { result := .err e, apiCalled := true }
    | .panic e => { result := .panic e, apiCalled := true }
    | .ok none => { result := .ok (), newId := some "", apiCalled := true }
    | .ok (some ap) =>
      { result := .ok (), apiCalled := true,
        set_instance_id := ap.InstanceId,
        set_cluster := ap.Cluster,
        set_user_name := ap.UserName,
        set_all_database := ap.AllDatabase,
        set_global_privileges := ap.GlobalPrivileges,
        set_database_privilege_list :=
          ap.DatabasePrivilegeList.map (List.map databasePrivilegeEntryOf) }

/-- `resourceTencentCloudClickhouseAccountPermissionUpdate`: split the id,
assert three components, reject any changed immutable argument before the
API call (`hasChange` models `d.HasChange`), invoke `ModifyUserNewPrivilege`
(outcome `remote`), then delegate to the read handler (its remote lookup's
outcome is `readRemote`). -/
def resourceTencentCloudClickhouseAccountPermissionUpdate (id : String)
    (hasChange : String → Bool) (remote : GoResult Unit)
    (readRemote : GoResult (Option CdwchAccountPermission)) : CkReadOutcome :=
  let idSplit := goSplit id
  if idSplit.length ≠ 3 then
    { result := .err (ckBrokenIdMsg id) }
  else
    match immutableArgs.find? hasChange with
    | some v => { result := .err (ckImmutableMsg v) }
    | none =>
      match remote with
      | .err e => { result := .err e, apiCalled := true }
      | .panic e => { result := .panic e, apiCalled := true }
      | .ok _ =>
        let r := resourceTencentCloudClickhouseAccountPermissionRead id readRemote
        { r with apiCalled := true }

/-- `resourceTencentCloudClickhouseAccountPermissionDelete`: split the id,
assert three components, then revoke remotely via `DescribeCkSqlApis`
(outcome `remote`). -/
def resourceTencentCloudClickhouseAccountPermissionDelete (id : String)
    (remote : GoResult Unit) : SimpleOutcome :=
  let idSplit := goSplit id
  if idSplit.length ≠ 3 then
    { result := .err (ckBrokenIdMsg id) }
  else
    match remote with
    | .err e => { result := .err e, apiCalled := true }
    | .panic e => { result := .panic e, apiCalled := true }
    | .ok _ => { result := .ok (), apiCalled := true }

/-- `resourceTencentCloudClickhouseAccountPermissionCreate`: invoke
`ModifyUserNewPrivilege` (outcome `remote`), then
`d.SetId(instanceId + FILED_SP + cluster + FILED_SP + userName)` and
delegate to the read handler, which may overwrite the id again. -/
def resourceTencentCloudClickhouseAccountPermissionCreate
    (instanceId cluster userName : String) (remote : GoResult Unit)
    (readRemote : GoResult (Option CdwchAccountPermission)) : CkReadOutcome :=
  match remote with
  | .err e => { result := .err e, apiCalled := true }
  | .panic e => { result := .panic e, apiCalled := true }
  | .ok _ =>
    let newId := instanceId ++ FILED_SP ++ cluster ++ FILED_SP ++ userName
    let r := resourceTencentCloudClickhouseAccountPermissionRead newId readRemote
    { r with apiCalled := true,
             newId := some (match r.newId with | some s => s | none => newId) }

/-! Monitor tmp scrape job (`resource_tc_monitor_tmp_scrape_job.go`).
The composite identifier is `strings.Join([jobId, instanceId, agentId], FILED_SP)`. -/

/-- Response of `service.DescribeMonitorTmpScrapeJob` (pointer fields). -/
structure PrometheusScrapeJob where
  AgentId : Option String := none
  Config : Option String := none
deriving DecidableEq

/-- Outcome record of the monitor tmp scrape-job read handler (also used
for create/update, which end by delegating to the read). -/
structure MonitorReadOutcome where
  result : GoResult Unit := .ok ()
  newId : Option String := none
  apiCalled : Bool := false
  set_instance_id : Option String := none
  set_agent_id : Option String := none
  set_config : Option String := none
deriving DecidableEq

/-- Error returned by the monitor read handler when the remote lookup
reports the scrape job absent. -/
def monitorNotExistMsg (id : String) : String :=
  "resource `tmpScrapeJob` " ++ id ++ " does not exist"

/-- Error returned by the monitor update handler when `instance_id` changed. -/
def monitorChInstanceMsg : String := "`instance_id` do not support change now."

/-- Error returned by the monitor update handler when `agent_id` changed. -/
def monitorChAgentMsg : String := "`agent_id` do not support change now."

/-- `resourceTencentCloudMonitorTmpScrapeJobRead`: look the job up remotely
by the whole id first (outcome `remote`); on a nil result clear the id and
return an error; otherwise write `instance_id` from
`strings.Split(id, FILED_SP)[1]` (an unchecked index: a one-component id
panics here) and the nil-guarded `agent_id`/`config` fields. -/
def resourceTencentCloudMonitorTmpScrapeJobRead (id : String)
    (remote : GoResult (Option PrometheusScrapeJob)) : MonitorReadOutcome :=
  match remote with
  | .err e => { result := .err e, apiCalled := true }
  | .panic e => { result := .panic e, apiCalled := true }
  | .ok none =>
    { result := .err (monitorNotExistMsg id), newId := some "", apiCalled := true }
  | .ok (some job) =>
    match goSplit id with
    | _ :: instanceId :: _ =>
      { result := .ok (), apiCalled := true,
        set_instance_id := some instanceId,
        set_agent_id := job.AgentId,
        set_config := job.Config }
    | _ => { result := .panic indexOutOfRangeMsg, apiCalled := true }

/-- `resourceTencentCloudMonitorTmpScrapeJobCreate`: invoke
`CreatePrometheusScrapeJob` (outcome `remote`, carrying the response's
`JobId` pointer, dereferenced without a nil check), then
`d.SetId(strings.Join([jobId, instanceId, agentId], FILED_SP))` and
delegate to the read handler. -/
def resourceTencentCloudMonitorTmpScrapeJobCreate (instanceId agentId : String)
    (_config : Option String) (remote : GoResult (Option String))
    (readRemote : GoResult (Option PrometheusScrapeJob)) : MonitorReadOutcome :=
  match remote with
  | .err e => { result := .err e, apiCalled := true }
  | .panic e => { result := .panic e, apiCalled := true }
  | .ok none => { result := .panic nilDerefMsg, apiCalled := true }
  | .ok (some jobId) =>
    let newId := goJoin [jobId, instanceId, agentId]
    let r := resourceTencentCloudMonitorTmpScrapeJobRead newId readRemote
    { r with apiCalled := true,
             newId := some (match r.newId with | some s => s | none => newId) }

/-- `resourceTencentCloudMonitorTmpScrapeJobUpdate`: split the id and read
`ids[0]`, `ids[1]`, `ids[2]` into the request with no component-count
assertion (fewer than three components panics with an index-out-of-range
runtime error before anything else happens); then reject changes of
`instance_id` or `agent_id` before the API call, invoke
`UpdatePrometheusScrapeJob` (outcome `remote`) and delegate to the read
handler. -/
def resourceTencentCloudMonitorTmpScrapeJobUpdate (id : String)
    (chInstanceId chAgentId : Bool) (_config : Option String)
    (remote : GoResult Unit)
    (readRemote : GoResult (Option PrometheusScrapeJob)) : MonitorReadOutcome :=
  match goSplit id with
  | _jobId :: _instanceId :: _agentId :: _ =>
    if chInstanceId then { result := .err monitorChInstanceMsg }
    else if chAgentId then { result := .err monitorChAgentMsg }
    else
      match remote with
      | .err e => { result := .err e, apiCalled := true }
      | .panic e => { result := .panic e, apiCalled := true }
      | .ok _ =>
        let r := resourceTencentCloudMonitorTmpScrapeJobRead id readRemote
        { r with apiCalled := true }
  | _ => { result := .panic indexOutOfRangeMsg }

/-- `resourceTencentCloudMonitorTmpScrapeJobDelete`: delete the job
remotely by the whole id (outcome `remote`); no identifier splitting. -/
def resourceTencentCloudMonitorTmpScrapeJobDelete (_id : String)
    (remote : GoResult Unit) : SimpleOutcome :=
  match remote with
  | .err e => { result := .err e, apiCalled := true }
  | .panic e => { result := .panic e, apiCalled := true }
  | .ok _ => { result := .ok (), apiCalled := true }

/-! Sqlserver config database CT (source `resource_tc_sqlserver_config_database_ct.go`).
The composite identifier is `strings.Join([instanceId, dbName], FILED_SP)`. -/

/-- Modelled from the spec: the numeric flow-status constants
`SQLSERVER_TASK_RUNNING` / `SQLSERVER_TASK_SUCCESS` / `SQLSERVER_TASK_FAIL`
are defined outside the provided source files; the spec fixes only their
roles (an explicit running code, a terminal success code, a failure code),
so three distinct integers model them. -/
def SQLSERVER_TASK_RUNNING : Int := 1

/-- Modelled from the spec: the terminal success status code. -/
def SQLSERVER_TASK_SUCCESS : Int := 2

/-- Modelled from the spec: the failure status code. -/
def SQLSERVER_TASK_FAIL : Int := 3

/-- One element of the `DescribeSqlserverConfigDatabaseCTById` response
(SDK pointer fields, dereferenced without nil checks by the read handler). -/
structure SqlserverDbCt where
  Name : Option String := none
  IsDbChainingOn : Option String := none
  RetentionPeriod : Option String := none
deriving DecidableEq

/-- Go `fmt` rendering of a `[]string` with the `%s` verb, as used by
`fmt.Errorf("id is broken,%s", idSplit)`. -/
def goFormatStringSlice (l : List String) : String :=
  "[" ++ String.intercalate " " l ++ "]"

/-- Error returned by the sqlserver CT read/update handlers when the
identifier does not split into exactly two components. -/
def sqlBrokenIdMsg (idSplit : List String) : String :=
  "id is broken," ++ goFormatStringSlice idSplit

/-- Go `strconv.Atoi` with the error discarded, as in
`changeRetentionDay, _ = strconv.Atoi(retentionPeriod)`: an optional sign
followed by at least one digit parses to its value, anything else (in
particular the empty string) yields 0.  64-bit range clamping is not
modelled; the handlers only apply this to short digit strings. -/
def goAtoi (s : String) : Int :=
  let digitsVal : List Char → Int := fun ds =>
    Int.ofNat (ds.foldl (fun acc c => acc * 10 + (c.toNat - '0'.toNat)) 0)
  match s.data with
  | [] => 0
  | '-' :: ds => if ds ≠ [] ∧ ds.all Char.isDigit then - digitsVal ds else 0
  | '+' :: ds => if ds ≠ [] ∧ ds.all Char.isDigit then digitsVal ds else 0
  | ds => if ds.all Char.isDigit then digitsVal ds else 0

/-- The read handler's loop over the response list: find the first entry
whose `*i.Name` equals the id's db-name component and record
`(Name, modifyType, RetentionPeriod)` from it, where `modifyType` is
"disable" when `*i.IsDbChainingOn == "0"` and "enable" otherwise.  The
pointer dereferences are unchecked, so a nil field panics.  Returns
`.ok none` when no entry matches (the loop falls through). -/
def findDbCt (dbName : String) : List SqlserverDbCt → GoResult (Option (String × String × String))
  | [] => .ok none
  | i :: rest =>
    match i.Name with
    | none => .panic nilDerefMsg
    | some name =>
      if name = dbName then
        match i.IsDbChainingOn with
        | none => .panic nilDerefMsg
        | some chaining =>
          match i.RetentionPeriod with
          | none => .panic nilDerefMsg
          | some retention =>
            .ok (some (name, (if chaining = "0" then "disable" else "enable"), retention))
      else findDbCt dbName rest

/-- Outcome record of the sqlserver CT read handler (also used for
create/update, which end by delegating to the read). -/
structure SqlCtReadOutcome where
  result : GoResult Unit := .ok ()
  newId : Option String := none
  apiCalled : Bool := false
  set_instance_id : Option String := none
  set_db_name : Option String := none
  set_modify_type : Option String := none
  set_change_retention_day : Option Int := none
deriving DecidableEq

/-- `resourceTencentCloudSqlserverConfigDatabaseCTRead`: split the id,
assert two components, describe the CT configuration remotely (outcome
`remote`; a nil result clears the id), then look the db-name component up
in the response list and unconditionally write `instance_id`, `db_name`,
`modify_type` and `change_retention_day` — when no entry matched, the
latter three are written with the zero values "", "" and `goAtoi "" = 0`. -/
def resourceTencentCloudSqlserverConfigDatabaseCTRead (id : String)
    (remote : GoResult (Option (List SqlserverDbCt))) : SqlCtReadOutcome :=
  let idSplit := goSplit id
  if idSplit.length ≠ 2 then
    { result := .err (sqlBrokenIdMsg idSplit) }
  else
    match idSplit with
    | instanceId :: dbName :: _ =>
      match remote with
      | .err e => { result := .err e, apiCalled := true }
      | .panic e => { result := .panic e, apiCalled := true }
      | .ok none => { result := .ok (), newId := some "", apiCalled := true }
      | .ok (some configDatabaseCT) =>
        match findDbCt dbName configDatabaseCT with
        | .panic e => { result := .panic e, apiCalled := true }
        | .err e => { result := .err e, apiCalled := true }
        | .ok found =>
          let Name := match found with | some (n, _, _) => n | none => ""
          let modifyType := match found with | some (_, m, _) => m | none => ""
          let retentionPeriod := match found with | some (_, _, r) => r | none => ""
          { result := .ok (), apiCalled := true,
            set_instance_id := some instanceId,
            set_db_name := some Name,
            set_modify_type := some modifyType,
            set_change_retention_day := some (goAtoi retentionPeriod) }
    | _ => { result := .panic indexOutOfRangeMsg }

/-- Error message of the first sqlserver CT update retry loop when the
`ModifyDatabaseCT` call returns a nil result. -/
def sqlNotExistsMsg : String := "sqlserver configDatabaseCT not exists"

/-- Retryable error message of the flow-status polling loop. -/
def pollRunningMsg : String := "sqlserver configDatabaseCT status is running"

/-- Fatal error message of the flow-status polling loop on the failure code. -/
def pollFailMsg : String := "sqlserver configDatabaseCT status is fail"

/-- Fatal error message of the flow-status polling loop on any other code. -/
def pollIllegalMsg : String := "sqlserver configDatabaseCT status illegal"

/-- The asynchronous-completion polling loop of the sqlserver CT update:
each list element is one observed `DescribeFlowStatus` status code (the
retry budget is the length of the list; exhausting it surfaces the last
retryable error, as `resource.Retry` does on timeout).  The success code
ends the loop with success, the running code retries, the failure code and
any unrecognized code end the loop with a non-retryable error. -/
def pollFlowStatus : List Int → GoResult Unit
  | [] => .err pollRunningMsg
  | s :: rest =>
    if s = SQLSERVER_TASK_SUCCESS then .ok ()
    else if s = SQLSERVER_TASK_RUNNING then pollFlowStatus rest
    else if s = SQLSERVER_TASK_FAIL then .err pollFailMsg
    else .err pollIllegalMsg

/-- `resourceTencentCloudSqlserverConfigDatabaseCTUpdate`: split the id,
assert two components, invoke `ModifyDatabaseCT` (outcome `remote`,
carrying the flow id; a nil result is a non-retryable error), poll the
flow status (`statuses` are the successively observed codes), then
delegate to the read handler. -/
def resourceTencentCloudSqlserverConfigDatabaseCTUpdate (id : String)
    (_modifyType : Option String) (_changeRetentionDay : Option Int)
    (remote : GoResult (Option Int)) (statuses : List Int)
    (readRemote : GoResult (Option (List SqlserverDbCt))) : SqlCtReadOutcome :=
  let idSplit := goSplit id
  if idSplit.length ≠ 2 then
    { result := .err (sqlBrokenIdMsg idSplit) }
  else
    match remote with
    | .err e => { result := .err e, apiCalled := true }
    | .panic e => { result := .panic e, apiCalled := true }
    | .ok none => { result := .err sqlNotExistsMsg, apiCalled := true }
    | .ok (some _flowId) =>
      match pollFlowStatus statuses with
      | .err e => { result := .err e, apiCalled := true }
      | .panic e => { result := .panic e, apiCalled := true }
      | .ok _ =>
        let r := resourceTencentCloudSqlserverConfigDatabaseCTRead id readRemote
        { r with apiCalled := true }

/-- `resourceTencentCloudSqlserverConfigDatabaseCTCreate`:
`d.SetId(strings.Join([instanceId, dbName], FILED_SP))` with no remote
call, then delegate everything to the update handler (which may overwrite
the id again through its trailing read). -/
def resourceTencentCloudSqlserverConfigDatabaseCTCreate (instanceId dbName : String)
    (modifyType : Option String) (changeRetentionDay : Option Int)
    (remote : GoResult (Option Int)) (statuses : List Int)
    (readRemote : GoResult (Option (List SqlserverDbCt))) : SqlCtReadOutcome :=
  let newId := goJoin [instanceId, dbName]
  let r := resourceTencentCloudSqlserverConfigDatabaseCTUpdate newId
    modifyType changeRetentionDay remote statuses readRemote
  { r with newId := some (match r.newId with | some s => s | none => newId) }

/-- `resourceTencentCloudSqlserverConfigDatabaseCTDelete`: the body is
`return nil` (only deferred logging); no remote API call is made and no
state is touched. -/
def resourceTencentCloudSqlserverConfigDatabaseCTDelete (_id : String) : SimpleOutcome :=
  { result := .ok (), apiCalled := false }

/-! Vpc flow log config (source `resource_tc_vpc_flow_log_config.go`).
The identifier is the single required `flow_log_id` field. -/

/-- One element of the `DescribeFlowLogs` response (pointer fields). -/
structure VpcFlowLog where
  Enable : Option Bool := none
deriving DecidableEq

/-- Outcome record of the vpc flow-log-config read handler (also used for
create/update, which end by delegating to the read). -/
structure VpcFlowLogConfigReadOutcome where
  result : GoResult Unit := .ok ()
  newId : Option String := none
  apiCalled : Bool := false
  set_flow_log_id : Option String := none
  set_enable : Option Bool := none
deriving DecidableEq

/-- `resourceTencentCloudVpcFlowLogConfigRead`: describe the flow logs by
id (outcome `remote`); an empty result list clears the id and returns nil;
otherwise write `flow_log_id` unconditionally and the nil-guarded `enable`
field of the first entry. -/
def resourceTencentCloudVpcFlowLogConfigRead (id : String)
    (remote : GoResult (List VpcFlowLog)) : VpcFlowLogConfigReadOutcome :=
  match remote with
  | .err e => { result := .err e, apiCalled := true }
  | .panic e => { result := .panic e, apiCalled := true }
  | .ok flowLogs =>
    if flowLogs.length < 1 then
      { result := .ok (), newId := some "", apiCalled := true }
    else
      match flowLogs with
      | flowLogConfig :: _ =>
        { result := .ok (), apiCalled := true,
          set_flow_log_id := some id,
          set_enable := flowLogConfig.Enable }
      | [] => { result := .panic indexOutOfRangeMsg, apiCalled := true }

/-- `resourceTencentCloudVpcFlowLogConfigUpdate`: depending on the
`enable` field, invoke `EnableFlowLogs` or `DisableFlowLogs` on the id
(both branches propagate the call's outcome `remote` identically), then
delegate to the read handler. -/
def resourceTencentCloudVpcFlowLogConfigUpdate (id : String) (_enable : Bool)
    (remote : GoResult Unit)
    (readRemote : GoResult (List VpcFlowLog)) : VpcFlowLogConfigReadOutcome :=
  match remote with
  | .err e => { result := .err e, apiCalled := true }
  | .panic e => { result := .panic e, apiCalled := true }
  | .ok _ =>
    let r := resourceTencentCloudVpcFlowLogConfigRead id readRemote
    { r with apiCalled := true }

/-- `resourceTencentCloudVpcFlowLogConfigCreate`: `d.SetId(flowLogId)` with
no remote call, then delegate everything to the update handler (which may
overwrite the id again through its trailing read). -/
def resourceTencentCloudVpcFlowLogConfigCreate (flowLogId : String) (enable : Bool)
    (remote : GoResult Unit)
    (readRemote : GoResult (List VpcFlowLog)) : VpcFlowLogConfigReadOutcome :=
  let r := resourceTencentCloudVpcFlowLogConfigUpdate flowLogId enable remote readRemote
  { r with newId := some (match r.newId with | some s => s | none => flowLogId) }

/-- `resourceTencentCloudVpcFlowLogConfigDelete`: the body is `return nil`
(only deferred logging); no remote API call is made and no state is
touched. -/
def resourceTencentCloudVpcFlowLogConfigDelete (_id : String) : SimpleOutcome :=
  { result := .ok (), apiCalled := false }

/-! Scf request status data source (`data_source_tc_scf_request_status.go`). -/

/-- SDK `scf.RequestStatus` (pointer fields).  `Duration` and `MemUsage`
are float64 pointers in the SDK; the handler only nil-checks and copies
them, so their payloads are modelled by opaque integers. -/
structure RequestStatus where
  FunctionName : Option String := none
  RetMsg : Option String := none
  RequestId : Option String := none
  StartTime : Option String := none
  RetCode : Option Int := none
  Duration : Option Int := none
  MemUsage : Option Int := none
  RetryNum : Option Int := none
deriving DecidableEq

/-- The entry map built for one list element of the `data` attribute. -/
structure RequestStatusEntry where
  function_name : Option String := none
  ret_msg : Option String := none
  request_id : Option String := none
  start_time : Option String := none
  ret_code : Option Int := none
  duration : Option Int := none
  mem_usage : Option Int := none
  retry_num : Option Int := none
deriving DecidableEq

/-- Rendering of one `RequestStatus` into its entry map: every field is
written only behind a nil check. -/
def requestStatusEntryOf (r : RequestStatus) : RequestStatusEntry :=
  { function_name := r.FunctionName, ret_msg := r.RetMsg,
    request_id := r.RequestId, start_time := r.StartTime,
    ret_code := r.RetCode, duration := r.Duration,
    mem_usage := r.MemUsage, retry_num := r.RetryNum }

/-- The loop of the scf request-status read over the response list: build
the nil-guarded entry map, then append `*requestStatus.FunctionName` to
the identifier list with no nil check — a nil `FunctionName` panics. -/
def scfRequestStatusLoop : List RequestStatus → GoResult (List String × List RequestStatusEntry)
  | [] => .ok ([], [])
  | r :: rest =>
    let entry := requestStatusEntryOf r
    match r.FunctionName with
    | none => .panic nilDerefMsg
    | some fn =>
      match scfRequestStatusLoop rest with
      | .ok (ids, entries) => .ok (fn :: ids, entry :: entries)
      | .err e => .err e
      | .panic e => .panic e

/-- Outcome record of the scf request-status data-source read. -/
structure ScfReadOutcome where
  result : GoResult Unit := .ok ()
  set_data : Option (List RequestStatusEntry) := none
  ids : List String := []
  apiCalled : Bool := false
deriving DecidableEq

/-- `dataSourceTencentCloudScfRequestStatusRead`: query the request status
remotely (outcome `remote`; the response slice may be nil, in which case
both the loop and the `d.Set("data", ...)` are skipped), then run
`scfRequestStatusLoop` and store the entry list. -/
def dataSourceTencentCloudScfRequestStatusRead
    (remote : GoResult (Option (List RequestStatus))) : ScfReadOutcome :=
  match remote with
  | .err e => { result := .err e, apiCalled := true }
  | .panic e => { result := .panic e, apiCalled := true }
  | .ok none => { result := .ok (), apiCalled := true }
  | .ok (some data) =>
    match scfRequestStatusLoop data with
    | .panic e => { result := .panic e, apiCalled := true }
    | .err e => { result := .err e, apiCalled := true }
    | .ok (ids, entries) =>
      { result := .ok (), set_data := some entries, ids := ids, apiCalled := true }

/-! Identifier codec lemmas. -/

theorem concat3_data (a b c : String) :
    (a ++ FILED_SP ++ b ++ FILED_SP ++ c).data
      = [FILED_SP_char].intercalate [a.data, b.data, c.data] := by
  simp [String.data_append, FILED_SP_data, List.intercalate, List.intersperse]

theorem goSplit_concat3 (a b c : String)
    (ha : FILED_SP_char ∉ a.data) (hb : FILED_SP_char ∉ b.data)
    (hc : FILED_SP_char ∉ c.data) :
    goSplit (a ++ FILED_SP ++ b ++ FILED_SP ++ c) = [a, b, c] := by
  rw [goSplit, concat3_data]
  rw [List.splitOn_intercalate]
  · rfl
  · intro l hl
    simp only [List.mem_cons, List.not_mem_nil, or_false] at hl
    rcases hl with h | h | h <;> subst h <;> assumption
  · simp

theorem goJoin_cons_data (p : String) (rest : List String) (hr : rest ≠ []) :
    (goJoin (p :: rest)).data
      = p.data ++ FILED_SP_char :: (goJoin rest).data := by
  rw [goJoin_data, goJoin_data]
  cases rest with
  | nil => exact absurd rfl hr
  | cons q qs => simp [List.intercalate, List.intersperse]

theorem goJoin_pair_ne_empty (p q : String) : goJoin [p, q] ≠ "" := by
  intro h
  have hd : (goJoin [p, q]).data = [] := by rw [h]
  rw [goJoin_cons_data p [q] (by simp)] at hd
  exact absurd hd (by simp)

theorem goJoin_triple_ne_empty (p q r : String) : goJoin [p, q, r] ≠ "" := by
  intro h
  have hd : (goJoin [p, q, r]).data = [] := by rw [h]
  rw [goJoin_cons_data p [q, r] (by simp)] at hd
  exact absurd hd (by simp)

theorem concat3_ne_empty (a b c : String) :
    a ++ FILED_SP ++ b ++ FILED_SP ++ c ≠ "" := by
  intro h
  have hd : (a ++ FILED_SP ++ b ++ FILED_SP ++ c).data = [] := by rw [h]
  rw [concat3_data] at hd
  simp [List.intercalate, List.intersperse] at hd

/-- Claim C9: for the sqlserver config-database-CT and vpc flow-log-config
resources, the delete handler always returns nil and performs no remote
API call, so remote state is unchanged by delete. -/
theorem c9_delete_is_noop (id1 id2 : String) :
    resourceTencentCloudSqlserverConfigDatabaseCTDelete id1
        = { result := .ok (), apiCalled := false }
    ∧ resourceTencentCloudVpcFlowLogConfigDelete id2
        = { result := .ok (), apiCalled := false } :=
  ⟨rfl, rfl⟩

/-- Claim C4: in the flow-status polling loop of the sqlserver CT update,
the success code ends the loop with success, the running code retries, and
any other status (the failure code included) ends the loop immediately
with a non-retryable error, independent of any further statuses. -/
theorem c4_poll_terminal_statuses (s : Int) (rest : List Int) :
    (s = SQLSERVER_TASK_SUCCESS → pollFlowStatus (s :: rest) = .ok ())
    ∧ (s = SQLSERVER_TASK_RUNNING → pollFlowStatus (s :: rest) = pollFlowStatus rest)
    ∧ (s ≠ SQLSERVER_TASK_SUCCESS → s ≠ SQLSERVER_TASK_RUNNING →
        pollFlowStatus (s :: rest)
            = .err (if s = SQLSERVER_TASK_FAIL then pollFailMsg else pollIllegalMsg)
          ∧ ∀ rest', pollFlowStatus (s :: rest) = pollFlowStatus (s :: rest')) := by
  refine ⟨?_, ?_, ?_⟩
  · intro h; simp [pollFlowStatus, h]
  · intro h
    simp [pollFlowStatus, h, SQLSERVER_TASK_RUNNING, SQLSERVER_TASK_SUCCESS]
  · intro h1 h2
    simp only [SQLSERVER_TASK_SUCCESS] at h1
    simp only [SQLSERVER_TASK_RUNNING] at h2
    constructor
    · by_cases hf : s = (3 : Int) <;>
        simp [pollFlowStatus, h1, h2, hf, SQLSERVER_TASK_RUNNING, SQLSERVER_TASK_SUCCESS,
          SQLSERVER_TASK_FAIL]
    · intro rest'
      by_cases hf : s = (3 : Int) <;>
        simp [pollFlowStatus, h1, h2, hf, SQLSERVER_TASK_RUNNING, SQLSERVER_TASK_SUCCESS,
          SQLSERVER_TASK_FAIL]

theorem c4_poll_terminal_statuses_witness :
    pollFlowStatus [2] = .ok ()
    ∧ pollFlowStatus (1 :: [2]) = pollFlowStatus [2]
    ∧ pollFlowStatus (99 :: [2])
        = .err (if (99 : Int) = SQLSERVER_TASK_FAIL then pollFailMsg else pollIllegalMsg)
    ∧ pollFlowStatus (99 :: [2]) = pollFlowStatus (99 :: [7]) :=
  ⟨(c4_poll_terminal_statuses 2 []).1 rfl,
   (c4_poll_terminal_statuses 1 [2]).2.1 rfl,
   ((c4_poll_terminal_statuses 99 [2]).2.2 (by decide) (by decide)).1,
   ((c4_poll_terminal_statuses 99 [2]).2.2 (by decide) (by decide)).2 [7]⟩

theorem scfRequestStatusLoop_ok_functionName {data : List RequestStatus}
    {p : List String × List RequestStatusEntry}
    (h : scfRequestStatusLoop data = .ok p) :
    ∀ r ∈ data, r.FunctionName ≠ none := by
  induction data generalizing p with
  | nil => intro r hr; cases hr
  | cons a rest ih =>
    cases ha : a.FunctionName with
    | none => simp [scfRequestStatusLoop, ha] at h
    | some fn =>
      simp only [scfRequestStatusLoop, ha] at h
      cases hrest : scfRequestStatusLoop rest with
      | ok q =>
        intro r hr
        rcases List.mem_cons.mp hr with rfl | hr
        · simp [ha]
        · exact ih (p := q) hrest r hr
      | err e => rw [hrest] at h; simp at h
      | panic e => rw [hrest] at h; simp at h

theorem scfRequestStatusLoop_panic {data : List RequestStatus}
    (h : ∃ r ∈ data, r.FunctionName = none) :
    scfRequestStatusLoop data = .panic nilDerefMsg := by
  induction data with
  | nil => rcases h with ⟨r, hr, _⟩; cases hr
  | cons a rest ih =>
    rcases h with ⟨r, hr, hnone⟩
    rcases List.mem_cons.mp hr with rfl | hr
    · simp [scfRequestStatusLoop, hnone]
    · cases ha : a.FunctionName with
      | none => simp [scfRequestStatusLoop, ha]
      | some fn =>
        have hrec := ih ⟨r, hr, hnone⟩
        simp [scfRequestStatusLoop, ha, hrec]

/-- Claim C10: the scf request-status read dereferences `FunctionName`
unconditionally while every other response field is nil-guarded (see
`requestStatusEntryOf`); the read completes without a nil-pointer panic
only if `FunctionName` is non-nil in every returned element, and panics
as soon as some element carries a nil `FunctionName`. -/
theorem c10_scf_read_function_name_unguarded (data : List RequestStatus) :
    ((dataSourceTencentCloudScfRequestStatusRead (.ok (some data))).result = .ok () →
      ∀ r ∈ data, r.FunctionName ≠ none)
    ∧ ((∃ r ∈ data, r.FunctionName = none) →
      (dataSourceTencentCloudScfRequestStatusRead (.ok (some data))).result
          = .panic nilDerefMsg) := by
  constructor
  · intro h
    cases hl : scfRequestStatusLoop data with
    | ok p => exact scfRequestStatusLoop_ok_functionName hl
    | err e => simp [dataSourceTencentCloudScfRequestStatusRead, hl] at h
    | panic e => simp [dataSourceTencentCloudScfRequestStatusRead, hl] at h
  · intro h
    have hp := scfRequestStatusLoop_panic h
    simp [dataSourceTencentCloudScfRequestStatusRead, hp]

theorem c10_scf_read_function_name_unguarded_witness :
    ({ FunctionName := some "f" } : RequestStatus).FunctionName ≠ none
    ∧ (dataSourceTencentCloudScfRequestStatusRead
        (.ok (some [{ FunctionName := none }]))).result = .panic nilDerefMsg :=
  ⟨(c10_scf_read_function_name_unguarded [{ FunctionName := some "f" }]).1 rfl
      { FunctionName := some "f" } (by simp),
   (c10_scf_read_function_name_unguarded [{ FunctionName := none }]).2
      ⟨{ FunctionName := none }, by simp, rfl⟩⟩

/-- Claim C1 counterexample: the monitor tmp scrape-job update does not
assert the component count after splitting: on the one-component
identifier "x" it panics indexing the split result instead of returning a
descriptive error. -/
theorem c1_counterexample :
    (resourceTencentCloudMonitorTmpScrapeJobUpdate "x" false false none
        (.ok ()) (.ok none)).result = .panic indexOutOfRangeMsg
    ∧ ¬ ∃ msg, (resourceTencentCloudMonitorTmpScrapeJobUpdate "x" false false none
        (.ok ()) (.ok none)).result = .err msg := by
  constructor
  · rfl
  · rintro ⟨msg, h⟩
    rw [show (resourceTencentCloudMonitorTmpScrapeJobUpdate "x" false false none
        (.ok ()) (.ok none)).result = .panic indexOutOfRangeMsg from rfl] at h
    exact GoResult.noConfusion h

/-- Claim C1 amended: the clickhouse account-permission read/update/delete
and the sqlserver config-database-CT read/update split the identifier and,
when the component count differs from the expected one, return a
descriptive error with no remote API call; the monitor tmp scrape-job
update, by contrast, indexes the split result with no count assertion
(a too-short identifier panics, still before any API call), and the
monitor read performs no count assertion either. -/
theorem c1_amended (id : String)
    (remoteCk : GoResult (Option CdwchAccountPermission))
    (hasChange : String → Bool) (remoteU remoteD : GoResult Unit)
    (remoteSql : GoResult (Option (List SqlserverDbCt)))
    (mt : Option String) (crd : Option Int)
    (remoteFlow : GoResult (Option Int)) (statuses : List Int)
    (chI chA : Bool) (cfg : Option String) (remoteM : GoResult Unit)
    (readM : GoResult (Option PrometheusScrapeJob)) :
    ((goSplit id).length ≠ 3 →
      (resourceTencentCloudClickhouseAccountPermissionRead id remoteCk
          = { result := .err (ckBrokenIdMsg id) })
      ∧ (resourceTencentCloudClickhouseAccountPermissionUpdate id hasChange remoteU remoteCk
          = { result := .err (ckBrokenIdMsg id) })
      ∧ (resourceTencentCloudClickhouseAccountPermissionDelete id remoteD
          = { result := .err (ckBrokenIdMsg id), apiCalled := false }))
    ∧ ((goSplit id).length ≠ 2 →
      (resourceTencentCloudSqlserverConfigDatabaseCTRead id remoteSql
          = { result := .err (sqlBrokenIdMsg (goSplit id)) })
      ∧ (resourceTencentCloudSqlserverConfigDatabaseCTUpdate id mt crd remoteFlow statuses remoteSql
          = { result := .err (sqlBrokenIdMsg (goSplit id)) }))
    ∧ ((goSplit id).length < 3 →
      resourceTencentCloudMonitorTmpScrapeJobUpdate id chI chA cfg remoteM readM
          = { result := .panic indexOutOfRangeMsg }) := by
  refine ⟨?_, ?_, ?_⟩
  · intro h
    refine ⟨?_, ?_, ?_⟩ <;>
      simp [resourceTencentCloudClickhouseAccountPermissionRead,
        resourceTencentCloudClickhouseAccountPermissionUpdate,
        resourceTencentCloudClickhouseAccountPermissionDelete, h]
  · intro h
    constructor <;>
      simp [resourceTencentCloudSqlserverConfigDatabaseCTRead,
        resourceTencentCloudSqlserverConfigDatabaseCTUpdate, h]
  · intro h
    cases hs : goSplit id with
    | nil => simp [resourceTencentCloudMonitorTmpScrapeJobUpdate, hs]
    | cons a rest =>
      cases rest with
      | nil => simp [resourceTencentCloudMonitorTmpScrapeJobUpdate, hs]
      | cons b rest2 =>
        cases rest2 with
        | nil => simp [resourceTencentCloudMonitorTmpScrapeJobUpdate, hs]
        | cons c rest3 => rw [hs] at h; simp at h; omega

theorem c1_amended_witness :
    (resourceTencentCloudClickhouseAccountPermissionRead "a" (.ok none)
        = { result := .err (ckBrokenIdMsg "a") })
    ∧ (resourceTencentCloudSqlserverConfigDatabaseCTRead "a" (.ok none)
        = { result := .err (sqlBrokenIdMsg (goSplit "a")) })
    ∧ (resourceTencentCloudMonitorTmpScrapeJobUpdate "a" false false none (.ok ()) (.ok none)
        = { result := .panic indexOutOfRangeMsg }) :=
  ⟨((c1_amended "a" (.ok none) (fun _ => false) (.ok ()) (.ok ()) (.ok none) none none
      (.ok none) [] false false none (.ok ()) (.ok none)).1 (by decide)).1,
   ((c1_amended "a" (.ok none) (fun _ => false) (.ok ()) (.ok ()) (.ok none) none none
      (.ok none) [] false false none (.ok ()) (.ok none)).2.1 (by decide)).1,
   (c1_amended "a" (.ok none) (fun _ => false) (.ok ()) (.ok ()) (.ok none) none none
      (.ok none) [] false false none (.ok ()) (.ok none)).2.2 (by decide)⟩

/-- Claim C2 counterexample: when the remote lookup reports the scrape job
absent, the monitor tmp scrape-job read clears the local identifier but
returns an error instead of nil. -/
theorem c2_counterexample :
    (resourceTencentCloudMonitorTmpScrapeJobRead "a#b#c" (.ok none)).newId = some ""
    ∧ (resourceTencentCloudMonitorTmpScrapeJobRead "a#b#c" (.ok none)).result
        = .err (monitorNotExistMsg "a#b#c")
    ∧ (resourceTencentCloudMonitorTmpScrapeJobRead "a#b#c" (.ok none)).result
        ≠ .ok () := by
  refine ⟨rfl, rfl, ?_⟩
  intro h
  rw [show (resourceTencentCloudMonitorTmpScrapeJobRead "a#b#c" (.ok none)).result
      = .err (monitorNotExistMsg "a#b#c") from rfl] at h
  exact GoResult.noConfusion h

/-- Claim C2 amended: when the remote lookup succeeds but reports the
resource absent, the clickhouse account-permission and vpc flow-log-config
reads clear the local identifier and return nil; the monitor tmp
scrape-job read clears the identifier too but returns an error rather
than nil. -/
theorem c2_amended (ckId vpcId mId : String)
    (h : (goSplit ckId).length = 3) :
    ((resourceTencentCloudClickhouseAccountPermissionRead ckId (.ok none)).newId = some ""
      ∧ (resourceTencentCloudClickhouseAccountPermissionRead ckId (.ok none)).result = .ok ())
    ∧ ((resourceTencentCloudVpcFlowLogConfigRead vpcId (.ok [])).newId = some ""
      ∧ (resourceTencentCloudVpcFlowLogConfigRead vpcId (.ok [])).result = .ok ())
    ∧ ((resourceTencentCloudMonitorTmpScrapeJobRead mId (.ok none)).newId = some ""
      ∧ (resourceTencentCloudMonitorTmpScrapeJobRead mId (.ok none)).result
          = .err (monitorNotExistMsg mId)) := by
  refine ⟨⟨?_, ?_⟩, ⟨rfl, rfl⟩, ⟨rfl, rfl⟩⟩ <;>
    simp [resourceTencentCloudClickhouseAccountPermissionRead, h]

theorem c2_amended_witness :
    ((resourceTencentCloudClickhouseAccountPermissionRead "a#b#c" (.ok none)).newId = some ""
      ∧ (resourceTencentCloudClickhouseAccountPermissionRead "a#b#c" (.ok none)).result = .ok ())
    ∧ ((resourceTencentCloudVpcFlowLogConfigRead "v" (.ok [])).newId = some ""
      ∧ (resourceTencentCloudVpcFlowLogConfigRead "v" (.ok [])).result = .ok ())
    ∧ ((resourceTencentCloudMonitorTmpScrapeJobRead "m" (.ok none)).newId = some ""
      ∧ (resourceTencentCloudMonitorTmpScrapeJobRead "m" (.ok none)).result
          = .err (monitorNotExistMsg "m")) :=
  c2_amended "a#b#c" "v" "m" (by decide)

/-- Claim C3: on a well-formed identifier, if an immutable argument changed
(clickhouse: `instance_id`, `cluster`, `user_name`; monitor scrape job:
`instance_id`, `agent_id`), the update handler returns an explicit error
naming the (first such) argument and issues no remote API call. -/
theorem c3_immutable_change_rejected_before_api (ckId mId : String)
    (hasChange : String → Bool) (remoteCk remoteM : GoResult Unit)
    (readCk : GoResult (Option CdwchAccountPermission))
    (readM : GoResult (Option PrometheusScrapeJob))
    (chI chA : Bool) (cfg : Option String)
    (hck : (goSplit ckId).length = 3)
    (hm : 3 ≤ (goSplit mId).length) :
    ((hasChange "instance_id" = true ∨ hasChange "cluster" = true
        ∨ hasChange "user_name" = true) →
      ∃ v, v ∈ immutableArgs ∧ hasChange v = true
        ∧ resourceTencentCloudClickhouseAccountPermissionUpdate ckId hasChange remoteCk readCk
            = { result := .err (ckImmutableMsg v) })
    ∧ ((chI = true ∨ chA = true) →
      resourceTencentCloudMonitorTmpScrapeJobUpdate mId chI chA cfg remoteM readM
          = { result := .err (if chI then monitorChInstanceMsg else monitorChAgentMsg) }) := by
  constructor
  · intro hch
    cases h1 : hasChange "instance_id" with
    | true =>
      refine ⟨"instance_id", by simp [immutableArgs], h1, ?_⟩
      simp [resourceTencentCloudClickhouseAccountPermissionUpdate, hck, immutableArgs,
        List.find?, h1]
    | false =>
      cases h2 : hasChange "cluster" with
      | true =>
        refine ⟨"cluster", by simp [immutableArgs], h2, ?_⟩
        simp [resourceTencentCloudClickhouseAccountPermissionUpdate, hck, immutableArgs,
          List.find?, h1, h2]
      | false =>
        cases h3 : hasChange "user_name" with
        | true =>
          refine ⟨"user_name", by simp [immutableArgs], h3, ?_⟩
          simp [resourceTencentCloudClickhouseAccountPermissionUpdate, hck, immutableArgs,
            List.find?, h1, h2, h3]
        | false =>
          rcases hch with h | h | h <;> simp_all
  · intro hch
    rcases hsplit : goSplit mId with _ | ⟨a, _ | ⟨b, _ | ⟨c, rest⟩⟩⟩
    · rw [hsplit] at hm; simp at hm
    · rw [hsplit] at hm; simp at hm
    · rw [hsplit] at hm; simp at hm
    · cases chI with
      | true => simp [resourceTencentCloudMonitorTmpScrapeJobUpdate, hsplit]
      | false =>
        rcases hch with h | h
        · exact absurd h (by simp)
        · subst h
          simp [resourceTencentCloudMonitorTmpScrapeJobUpdate, hsplit]

theorem c3_immutable_change_rejected_before_api_witness :
    resourceTencentCloudClickhouseAccountPermissionUpdate "a#b#c"
        (fun s => s == "cluster") (.ok ()) (.ok none)
        = { result := .err (ckImmutableMsg "cluster") }
    ∧ resourceTencentCloudMonitorTmpScrapeJobUpdate "a#b#c" true false none (.ok ()) (.ok none)
        = { result := .err (if true then monitorChInstanceMsg else monitorChAgentMsg) } := by
  constructor
  · obtain ⟨v, hv, hch, heq⟩ :=
      (c3_immutable_change_rejected_before_api "a#b#c" "a#b#c" (fun s => s == "cluster")
        (.ok ()) (.ok ()) (.ok none) (.ok none) true false none (by decide) (by decide)).1
        (Or.inr (Or.inl (by decide)))
    have hveq : v = "cluster" := by
      simp only [immutableArgs, List.mem_cons, List.not_mem_nil, or_false] at hv
      rcases hv with rfl | rfl | rfl
      · exact absurd hch (by decide)
      · rfl
      · exact absurd hch (by decide)
    rw [hveq] at heq
    exact heq
  · exact (c3_immutable_change_rejected_before_api "a#b#c" "a#b#c" (fun s => s == "cluster")
      (.ok ()) (.ok ()) (.ok none) (.ok none) true false none (by decide) (by decide)).2
      (Or.inl rfl)

/-- Claim C5: when no component contains the separator, the composite
identifier written by the clickhouse create
(`instanceId + FILED_SP + cluster + FILED_SP + userName`) splits back into
exactly the original components in order, so the component-count assertion
of the subsequent read/update/delete passes and both handlers reach their
remote call. -/
theorem c5_create_id_roundtrip (a b c : String)
    (ap : CdwchAccountPermission)
    (remote : GoResult (Option CdwchAccountPermission)) (remoteD : GoResult Unit)
    (ha : FILED_SP_char ∉ a.data) (hb : FILED_SP_char ∉ b.data)
    (hc : FILED_SP_char ∉ c.data) :
    goSplit (a ++ FILED_SP ++ b ++ FILED_SP ++ c) = [a, b, c]
    ∧ (goSplit (a ++ FILED_SP ++ b ++ FILED_SP ++ c)).length = 3
    ∧ (resourceTencentCloudClickhouseAccountPermissionCreate a b c (.ok ()) (.ok (some ap))).newId
        = some (a ++ FILED_SP ++ b ++ FILED_SP ++ c)
    ∧ (resourceTencentCloudClickhouseAccountPermissionRead
        (a ++ FILED_SP ++ b ++ FILED_SP ++ c) remote).apiCalled = true
    ∧ (resourceTencentCloudClickhouseAccountPermissionDelete
        (a ++ FILED_SP ++ b ++ FILED_SP ++ c) remoteD).apiCalled = true := by
  have hsplit := goSplit_concat3 a b c ha hb hc
  refine ⟨hsplit, by rw [hsplit]; rfl, ?_, ?_, ?_⟩
  · simp [resourceTencentCloudClickhouseAccountPermissionCreate,
      resourceTencentCloudClickhouseAccountPermissionRead, hsplit]
  · cases remote with
    | ok o =>
      cases o <;> simp [resourceTencentCloudClickhouseAccountPermissionRead, hsplit]
    | err e => simp [resourceTencentCloudClickhouseAccountPermissionRead, hsplit]
    | panic e => simp [resourceTencentCloudClickhouseAccountPermissionRead, hsplit]
  · cases remoteD with
    | ok o => simp [resourceTencentCloudClickhouseAccountPermissionDelete, hsplit]
    | err e => simp [resourceTencentCloudClickhouseAccountPermissionDelete, hsplit]
    | panic e => simp [resourceTencentCloudClickhouseAccountPermissionDelete, hsplit]

theorem c5_create_id_roundtrip_witness :
    goSplit ("i" ++ FILED_SP ++ "d" ++ FILED_SP ++ "u") = ["i", "d", "u"]
    ∧ (goSplit ("i" ++ FILED_SP ++ "d" ++ FILED_SP ++ "u")).length = 3
    ∧ (resourceTencentCloudClickhouseAccountPermissionCreate "i" "d" "u"
        (.ok ()) (.ok (some {}))).newId = some ("i" ++ FILED_SP ++ "d" ++ FILED_SP ++ "u")
    ∧ (resourceTencentCloudClickhouseAccountPermissionRead
        ("i" ++ FILED_SP ++ "d" ++ FILED_SP ++ "u") (.ok none)).apiCalled = true
    ∧ (resourceTencentCloudClickhouseAccountPermissionDelete
        ("i" ++ FILED_SP ++ "d" ++ FILED_SP ++ "u") (.ok ())).apiCalled = true :=
  c5_create_id_roundtrip "i" "d" "u" {} (.ok none) (.ok ())
    (by decide) (by decide) (by decide)

/-- Claim C6 counterexample: when the remote response holds no entry whose
name matches the id's db-name component, the sqlserver config-database-CT
read does not leave `db_name`, `modify_type` and `change_retention_day`
unchanged: it writes the zero values "", "" and 0 into them. -/
theorem c6_counterexample :
    (resourceTencentCloudSqlserverConfigDatabaseCTRead "a#b"
        (.ok (some [{ Name := some "z", IsDbChainingOn := some "0",
                      RetentionPeriod := some "5" }]))).set_db_name = some ""
    ∧ (resourceTencentCloudSqlserverConfigDatabaseCTRead "a#b"
        (.ok (some [{ Name := some "z", IsDbChainingOn := some "0",
                      RetentionPeriod := some "5" }]))).set_modify_type = some ""
    ∧ (resourceTencentCloudSqlserverConfigDatabaseCTRead "a#b"
        (.ok (some [{ Name := some "z", IsDbChainingOn := some "0",
                      RetentionPeriod := some "5" }]))).set_change_retention_day = some 0 :=
  ⟨rfl, rfl, rfl⟩

/-- Claim C6 amended: the clickhouse account-permission read writes each
schema field exactly when the corresponding response field is non-nil and
leaves it unchanged otherwise; the sqlserver config-database-CT read, by
contrast, writes `instance_id`, `db_name`, `modify_type` and
`change_retention_day` unconditionally, defaulting the latter three to
"", "" and 0 when no response entry matches the id's db-name component. -/
theorem c6_amended (id : String) (ap : CdwchAccountPermission)
    (sqlId instanceId dbName : String) (dbs : List SqlserverDbCt)
    (h : (goSplit id).length = 3)
    (hsql : goSplit sqlId = [instanceId, dbName])
    (hnone : findDbCt dbName dbs = .ok none) :
    ((resourceTencentCloudClickhouseAccountPermissionRead id (.ok (some ap))).set_instance_id
        = ap.InstanceId
      ∧ (resourceTencentCloudClickhouseAccountPermissionRead id (.ok (some ap))).set_cluster
        = ap.Cluster
      ∧ (resourceTencentCloudClickhouseAccountPermissionRead id (.ok (some ap))).set_user_name
        = ap.UserName
      ∧ (resourceTencentCloudClickhouseAccountPermissionRead id (.ok (some ap))).set_all_database
        = ap.AllDatabase
      ∧ (resourceTencentCloudClickhouseAccountPermissionRead id (.ok (some ap))).set_global_privileges
        = ap.GlobalPrivileges
      ∧ (resourceTencentCloudClickhouseAccountPermissionRead id (.ok (some ap))).set_database_privilege_list
        = ap.DatabasePrivilegeList.map (List.map databasePrivilegeEntryOf))
    ∧ ((resourceTencentCloudSqlserverConfigDatabaseCTRead sqlId (.ok (some dbs))).set_instance_id
        = some instanceId
      ∧ (resourceTencentCloudSqlserverConfigDatabaseCTRead sqlId (.ok (some dbs))).set_db_name
        = some ""
      ∧ (resourceTencentCloudSqlserverConfigDatabaseCTRead sqlId (.ok (some dbs))).set_modify_type
        = some ""
      ∧ (resourceTencentCloudSqlserverConfigDatabaseCTRead sqlId (.ok (some dbs))).set_change_retention_day
        = some 0) := by
  constructor
  · refine ⟨?_, ?_, ?_, ?_, ?_, ?_⟩ <;>
      simp [resourceTencentCloudClickhouseAccountPermissionRead, h]
  · refine ⟨?_, ?_, ?_, ?_⟩ <;>
      simp [resourceTencentCloudSqlserverConfigDatabaseCTRead, hsql, hnone, goAtoi]

theorem c6_amended_witness :
    ((resourceTencentCloudClickhouseAccountPermissionRead "a#b#c"
        (.ok (some { InstanceId := some "a" }))).set_instance_id = some "a"
      ∧ (resourceTencentCloudClickhouseAccountPermissionRead "a#b#c"
        (.ok (some { InstanceId := some "a" }))).set_cluster = none
      ∧ (resourceTencentCloudClickhouseAccountPermissionRead "a#b#c"
        (.ok (some { InstanceId := some "a" }))).set_user_name = none
      ∧ (resourceTencentCloudClickhouseAccountPermissionRead "a#b#c"
        (.ok (some { InstanceId := some "a" }))).set_all_database = none
      ∧ (resourceTencentCloudClickhouseAccountPermissionRead "a#b#c"
        (.ok (some { InstanceId := some "a" }))).set_global_privileges = none
      ∧ (resourceTencentCloudClickhouseAccountPermissionRead "a#b#c"
        (.ok (some { InstanceId := some "a" }))).set_database_privilege_list = none)
    ∧ ((resourceTencentCloudSqlserverConfigDatabaseCTRead "a#b"
        (.ok (some [{ Name := some "z", IsDbChainingOn := some "0",
                      RetentionPeriod := some "5" }]))).set_instance_id = some "a"
      ∧ (resourceTencentCloudSqlserverConfigDatabaseCTRead "a#b"
        (.ok (some [{ Name := some "z", IsDbChainingOn := some "0",
                      RetentionPeriod := some "5" }]))).set_db_name = some ""
      ∧ (resourceTencentCloudSqlserverConfigDatabaseCTRead "a#b"
        (.ok (some [{ Name := some "z", IsDbChainingOn := some "0",
                      RetentionPeriod := some "5" }]))).set_modify_type = some ""
      ∧ (resourceTencentCloudSqlserverConfigDatabaseCTRead "a#b"
        (.ok (some [{ Name := some "z", IsDbChainingOn := some "0",
                      RetentionPeriod := some "5" }]))).set_change_retention_day = some 0) :=
  c6_amended "a#b#c" { InstanceId := some "a" } "a#b" "a" "b"
    [{ Name := some "z", IsDbChainingOn := some "0", RetentionPeriod := some "5" }]
    (by decide) (by decide) (by decide)

theorem ckRead_some_newId_none (id : String) (ap : CdwchAccountPermission) :
    (resourceTencentCloudClickhouseAccountPermissionRead id (.ok (some ap))).newId = none := by
  by_cases hg : (goSplit id).length = 3 <;>
    simp [resourceTencentCloudClickhouseAccountPermissionRead, hg]

theorem mRead_some_newId_none (id : String) (job : PrometheusScrapeJob) :
    (resourceTencentCloudMonitorTmpScrapeJobRead id (.ok (some job))).newId = none := by
  rcases hs : goSplit id with _ | ⟨a, _ | ⟨b, r⟩⟩ <;>
    simp [resourceTencentCloudMonitorTmpScrapeJobRead, hs]

theorem sqlRead_newId_cases (id : String) (remote : GoResult (Option (List SqlserverDbCt))) :
    (resourceTencentCloudSqlserverConfigDatabaseCTRead id remote).newId = none
    ∨ ((resourceTencentCloudSqlserverConfigDatabaseCTRead id remote).newId = some ""
        ∧ (resourceTencentCloudSqlserverConfigDatabaseCTRead id remote).result = .ok ()) := by
  rcases hs : goSplit id with _ | ⟨x, _ | ⟨y, _ | ⟨z, r⟩⟩⟩
  · exact Or.inl (by simp [resourceTencentCloudSqlserverConfigDatabaseCTRead, hs])
  · exact Or.inl (by simp [resourceTencentCloudSqlserverConfigDatabaseCTRead, hs])
  · cases remote with
    | err e =>
      exact Or.inl (by simp [resourceTencentCloudSqlserverConfigDatabaseCTRead, hs])
    | panic e =>
      exact Or.inl (by simp [resourceTencentCloudSqlserverConfigDatabaseCTRead, hs])
    | ok o =>
      cases o with
      | none =>
        refine Or.inr ⟨?_, ?_⟩ <;>
          simp [resourceTencentCloudSqlserverConfigDatabaseCTRead, hs]
      | some dbs =>
        cases hf : findDbCt y dbs with
        | ok found =>
          exact Or.inl (by simp [resourceTencentCloudSqlserverConfigDatabaseCTRead, hs, hf])
        | err e =>
          exact Or.inl (by simp [resourceTencentCloudSqlserverConfigDatabaseCTRead, hs, hf])
        | panic e =>
          exact Or.inl (by simp [resourceTencentCloudSqlserverConfigDatabaseCTRead, hs, hf])
  · exact Or.inl (by simp [resourceTencentCloudSqlserverConfigDatabaseCTRead, hs])

theorem sqlUpdate_newId_cases (id : String) (mt : Option String) (crd : Option Int)
    (remF : GoResult (Option Int)) (sts : List Int)
    (rr : GoResult (Option (List SqlserverDbCt))) :
    (resourceTencentCloudSqlserverConfigDatabaseCTUpdate id mt crd remF sts rr).newId = none
    ∨ ((resourceTencentCloudSqlserverConfigDatabaseCTUpdate id mt crd remF sts rr).newId = some ""
        ∧ (resourceTencentCloudSqlserverConfigDatabaseCTUpdate id mt crd remF sts rr).result
            = .ok ()) := by
  by_cases hg : (goSplit id).length = 2
  · cases remF with
    | err e =>
      exact Or.inl (by simp [resourceTencentCloudSqlserverConfigDatabaseCTUpdate, hg])
    | panic e =>
      exact Or.inl (by simp [resourceTencentCloudSqlserverConfigDatabaseCTUpdate, hg])
    | ok o =>
      cases o with
      | none =>
        exact Or.inl (by simp [resourceTencentCloudSqlserverConfigDatabaseCTUpdate, hg])
      | some fl =>
        cases hp : pollFlowStatus sts with
        | err e =>
          exact Or.inl (by simp [resourceTencentCloudSqlserverConfigDatabaseCTUpdate, hg, hp])
        | panic e =>
          exact Or.inl (by simp [resourceTencentCloudSqlserverConfigDatabaseCTUpdate, hg, hp])
        | ok u =>
          rcases sqlRead_newId_cases id rr with h | ⟨h1, h2⟩
          · exact Or.inl
              (by simp [resourceTencentCloudSqlserverConfigDatabaseCTUpdate, hg, hp, h])
          · refine Or.inr ⟨?_, ?_⟩ <;>
              simp [resourceTencentCloudSqlserverConfigDatabaseCTUpdate, hg, hp, h1, h2]
  · exact Or.inl (by simp [resourceTencentCloudSqlserverConfigDatabaseCTUpdate, hg])

theorem vpcRead_newId_cases (id : String) (remote : GoResult (List VpcFlowLog)) :
    (resourceTencentCloudVpcFlowLogConfigRead id remote).newId = none
    ∨ ((resourceTencentCloudVpcFlowLogConfigRead id remote).newId = some ""
        ∧ (resourceTencentCloudVpcFlowLogConfigRead id remote).result = .ok ()) := by
  cases remote with
  | err e => exact Or.inl rfl
  | panic e => exact Or.inl rfl
  | ok flowLogs =>
    cases flowLogs with
    | nil => exact Or.inr ⟨rfl, rfl⟩
    | cons f r => exact Or.inl (by simp [resourceTencentCloudVpcFlowLogConfigRead])

theorem vpcUpdate_newId_cases (id : String) (en : Bool) (remV : GoResult Unit)
    (rv : GoResult (List VpcFlowLog)) :
    (resourceTencentCloudVpcFlowLogConfigUpdate id en remV rv).newId = none
    ∨ ((resourceTencentCloudVpcFlowLogConfigUpdate id en remV rv).newId = some ""
        ∧ (resourceTencentCloudVpcFlowLogConfigUpdate id en remV rv).result = .ok ()) := by
  cases remV with
  | err e => exact Or.inl rfl
  | panic e => exact Or.inl rfl
  | ok u =>
    rcases vpcRead_newId_cases id rv with h | ⟨h1, h2⟩
    · exact Or.inl (by simp [resourceTencentCloudVpcFlowLogConfigUpdate, h])
    · refine Or.inr ⟨?_, ?_⟩ <;> simp [resourceTencentCloudVpcFlowLogConfigUpdate, h1, h2]

theorem sqlRead_some_newId_none (id : String) (dbs : List SqlserverDbCt) :
    (resourceTencentCloudSqlserverConfigDatabaseCTRead id (.ok (some dbs))).newId = none := by
  rcases hs : goSplit id with _ | ⟨x, _ | ⟨y, _ | ⟨z, r⟩⟩⟩
  · simp [resourceTencentCloudSqlserverConfigDatabaseCTRead, hs]
  · simp [resourceTencentCloudSqlserverConfigDatabaseCTRead, hs]
  · cases hf : findDbCt y dbs with
    | ok found => simp [resourceTencentCloudSqlserverConfigDatabaseCTRead, hs, hf]
    | err e => simp [resourceTencentCloudSqlserverConfigDatabaseCTRead, hs, hf]
    | panic e => simp [resourceTencentCloudSqlserverConfigDatabaseCTRead, hs, hf]
  · simp [resourceTencentCloudSqlserverConfigDatabaseCTRead, hs]

theorem sqlUpdate_some_newId_none (id : String) (mt : Option String) (crd : Option Int)
    (remF : GoResult (Option Int)) (sts : List Int) (dbs : List SqlserverDbCt) :
    (resourceTencentCloudSqlserverConfigDatabaseCTUpdate id mt crd remF sts
        (.ok (some dbs))).newId = none := by
  by_cases hg : (goSplit id).length = 2
  · cases remF with
    | err e => simp [resourceTencentCloudSqlserverConfigDatabaseCTUpdate, hg]
    | panic e => simp [resourceTencentCloudSqlserverConfigDatabaseCTUpdate, hg]
    | ok o =>
      cases o with
      | none => simp [resourceTencentCloudSqlserverConfigDatabaseCTUpdate, hg]
      | some fl =>
        cases hp : pollFlowStatus sts with
        | err e => simp [resourceTencentCloudSqlserverConfigDatabaseCTUpdate, hg, hp]
        | panic e => simp [resourceTencentCloudSqlserverConfigDatabaseCTUpdate, hg, hp]
        | ok u =>
          have h := sqlRead_some_newId_none id dbs
          simp [resourceTencentCloudSqlserverConfigDatabaseCTUpdate, hg, hp, h]
  · simp [resourceTencentCloudSqlserverConfigDatabaseCTUpdate, hg]

/-- Claim C7 counterexample: the clickhouse create can return nil with an
empty identifier stored: when the post-create delegated read observes the
resource absent remotely, it clears the id to "" and returns nil, which
create passes through. -/
theorem c7_counterexample :
    (resourceTencentCloudClickhouseAccountPermissionCreate "i" "c" "u"
        (.ok ()) (.ok none)).result = .ok ()
    ∧ (resourceTencentCloudClickhouseAccountPermissionCreate "i" "c" "u"
        (.ok ()) (.ok none)).newId = some "" :=
  ⟨rfl, rfl⟩

/-- Claim C7 amended: when the delegated post-create read observes the
resource present remotely, the identifier stored by a create is the one
create wrote and is non-empty — composite identifiers because the
separator is non-empty, the vpc flow-log-config identifier provided its
required `flow_log_id` is non-empty; if the delegated read observes the
resource absent instead, create can return nil with the identifier
cleared to the empty string. -/
theorem c7_amended (i c u : String) (ap : CdwchAccountPermission)
    (j mi ma : String) (cfg : Option String) (job : PrometheusScrapeJob)
    (si sd : String) (mt : Option String) (crd : Option Int)
    (remF : GoResult (Option Int)) (sts : List Int) (dbs : List SqlserverDbCt)
    (fid : String) (en : Bool) (remV : GoResult Unit) (fls : List VpcFlowLog)
    (hfls : fls ≠ []) (hfid : fid ≠ "") :
    ((resourceTencentCloudClickhouseAccountPermissionCreate i c u (.ok ())
        (.ok (some ap))).newId = some (i ++ FILED_SP ++ c ++ FILED_SP ++ u)
      ∧ i ++ FILED_SP ++ c ++ FILED_SP ++ u ≠ "")
    ∧ ((resourceTencentCloudMonitorTmpScrapeJobCreate mi ma cfg (.ok (some j))
        (.ok (some job))).newId = some (goJoin [j, mi, ma])
      ∧ goJoin [j, mi, ma] ≠ "")
    ∧ ((resourceTencentCloudSqlserverConfigDatabaseCTCreate si sd mt crd remF sts
        (.ok (some dbs))).newId = some (goJoin [si, sd])
      ∧ goJoin [si, sd] ≠ "")
    ∧ ((resourceTencentCloudVpcFlowLogConfigCreate fid en remV (.ok fls)).newId = some fid
      ∧ fid ≠ "") := by
  refine ⟨⟨?_, concat3_ne_empty i c u⟩, ⟨?_, goJoin_triple_ne_empty j mi ma⟩,
    ⟨?_, goJoin_pair_ne_empty si sd⟩, ⟨?_, hfid⟩⟩
  · have h := ckRead_some_newId_none (i ++ FILED_SP ++ c ++ FILED_SP ++ u) ap
    simp [resourceTencentCloudClickhouseAccountPermissionCreate, h]
  · have h := mRead_some_newId_none (goJoin [j, mi, ma]) job
    simp [resourceTencentCloudMonitorTmpScrapeJobCreate, h]
  · have h := sqlUpdate_some_newId_none (goJoin [si, sd]) mt crd remF sts dbs
    simp [resourceTencentCloudSqlserverConfigDatabaseCTCreate, h]
  · cases fls with
    | nil => exact absurd rfl hfls
    | cons f r =>
      have h : (resourceTencentCloudVpcFlowLogConfigRead fid (.ok (f :: r))).newId = none := by
        simp [resourceTencentCloudVpcFlowLogConfigRead]
      cases remV with
      | err e => simp [resourceTencentCloudVpcFlowLogConfigCreate,
          resourceTencentCloudVpcFlowLogConfigUpdate]
      | panic e => simp [resourceTencentCloudVpcFlowLogConfigCreate,
          resourceTencentCloudVpcFlowLogConfigUpdate]
      | ok un => simp [resourceTencentCloudVpcFlowLogConfigCreate,
          resourceTencentCloudVpcFlowLogConfigUpdate, h]

theorem c7_amended_witness :
    (resourceTencentCloudVpcFlowLogConfigCreate "v" true (.ok ()) (.ok [{}])).newId = some "v"
    ∧ ("v" : String) ≠ "" :=
  (c7_amended "i" "c" "u" {} "j" "m" "g" none {} "s" "d" none none (.ok (some 1)) [2] []
    "v" true (.ok ()) [{}] (by simp) (by decide)).2.2.2

/-- Claim C8: the sqlserver config-database-CT and vpc flow-log-config
creates write the identifier into state before any remote API call and
then delegate to update: whenever the delegated update fails, create
returns that very error with the identifier already stored. -/
theorem c8_create_presets_id_and_propagates_update_failure
    (si sd : String) (mt : Option String) (crd : Option Int)
    (remF : GoResult (Option Int)) (sts : List Int)
    (rr : GoResult (Option (List SqlserverDbCt)))
    (fid : String) (en : Bool) (remV : GoResult Unit) (rv : GoResult (List VpcFlowLog))
    (e1 e2 : String)
    (h1 : (resourceTencentCloudSqlserverConfigDatabaseCTUpdate (goJoin [si, sd]) mt crd
        remF sts rr).result = .err e1)
    (h2 : (resourceTencentCloudVpcFlowLogConfigUpdate fid en remV rv).result = .err e2) :
    ((resourceTencentCloudSqlserverConfigDatabaseCTCreate si sd mt crd remF sts rr).result
        = .err e1
      ∧ (resourceTencentCloudSqlserverConfigDatabaseCTCreate si sd mt crd remF sts rr).newId
        = some (goJoin [si, sd]))
    ∧ ((resourceTencentCloudVpcFlowLogConfigCreate fid en remV rv).result = .err e2
      ∧ (resourceTencentCloudVpcFlowLogConfigCreate fid en remV rv).newId = some fid) := by
  refine ⟨⟨h1, ?_⟩, ⟨h2, ?_⟩⟩
  · rcases sqlUpdate_newId_cases (goJoin [si, sd]) mt crd remF sts rr with h | ⟨_, hok⟩
    · simp [resourceTencentCloudSqlserverConfigDatabaseCTCreate, h]
    · rw [h1] at hok
      exact GoResult.noConfusion hok
  · rcases vpcUpdate_newId_cases fid en remV rv with h | ⟨_, hok⟩
    · simp [resourceTencentCloudVpcFlowLogConfigCreate, h]
    · rw [h2] at hok
      exact GoResult.noConfusion hok

theorem c8_create_presets_id_and_propagates_update_failure_witness :
    ((resourceTencentCloudSqlserverConfigDatabaseCTCreate "s" "d" none none
        (.err "boom") [] (.ok none)).result = .err "boom"
      ∧ (resourceTencentCloudSqlserverConfigDatabaseCTCreate "s" "d" none none
        (.err "boom") [] (.ok none)).newId = some (goJoin ["s", "d"]))
    ∧ ((resourceTencentCloudVpcFlowLogConfigCreate "v" true (.err "bam") (.ok [])).result
        = .err "bam"
      ∧ (resourceTencentCloudVpcFlowLogConfigCreate "v" true (.err "bam") (.ok [])).newId
        = some "v") :=
  c8_create_presets_id_and_propagates_update_failure "s" "d" none none (.err "boom") []
    (.ok none) "v" true (.err "bam") (.ok []) "boom" "bam" (by decide) rfl
